import Mathlib

/-! Verification model of normcap's update-version comparator
(`src/normcap/gui/update_check.py`, `UpdateChecker._is_new_version`) and of the
dbus screenshot-portal protocol (`src/normcap/screengrab/dbus_portal.py`).
Python strings are modelled as Lean `String` (lists of unicode characters),
Python integers as `Nat`, and fallible code as `Option`/`Except`. -/

/-! Section: the version comparator `_is_new_version`. -/

/-- Model of Python `re.split(r"\.|\-", s)` on the character list of `s`:
the string is cut at every `'.'` or `'-'`, keeping empty components. -/
def split_ver : List Char → List (List Char)
  | [] => [[]]
  | c :: rest =>
    if c = '.' ∨ c = '-' then [] :: split_ver rest
    else
      match split_ver rest with
      | [] => [[c]]
      | comp :: comps => (c :: comp) :: comps

/-- Model of Python `str.zfill(width)`: pad on the left with `'0'` up to
`width` characters; a leading sign character stays in front of the padding. -/
def zfill (width : Nat) (l : List Char) : List Char :=
  match l with
  | [] => List.replicate width '0'
  | c :: rest =>
    if c = '+' ∨ c = '-' then c :: List.replicate (width - l.length) '0' ++ rest
    else List.replicate (width - l.length) '0' ++ l

/-- Lexicographic order on character lists, exactly Python's `<` on `str`
(compare code points at the first differing position; a proper prefix is
smaller). -/
def list_char_lt : List Char → List Char → Bool
  | [], [] => false
  | [], _ :: _ => true
  | _ :: _, [] => false
  | a :: as, b :: bs => if a = b then list_char_lt as bs else decide (a < b)

/-- Lexicographic order on tuples of strings, exactly Python's `<` on
`tuple[str, ...]`. -/
def list_lex_lt : List (List Char) → List (List Char) → Bool
  | [], [] => false
  | [], _ :: _ => true
  | _ :: _, [] => false
  | a :: as, b :: bs => if a = b then list_lex_lt as bs else list_char_lt a b

/-- Model of Python `int(s)` for a string of decimal digits; `int("")`
raises `ValueError`, modelled as `none`. -/
def parse_int : List Char → Option Nat
  | [] => none
  | l => some (l.foldl (fun acc c => acc * 10 + (c.toNat - 48)) 0)

/-- Model of `UpdateChecker._is_new_version(current, other)`
(`update_check.py` lines 74-112), translated clause by clause:
split both versions on `.` and `-`, zero-fill each component to width 8,
compare the first three components as string tuples, then handle pre-release
suffixes: only one side suffixed means the unsuffixed side is newer; else
compare the first characters of component 3, else compare the digits kept
from component 3 as integers.  `none` models a raised `IndexError`
(`tuple[3]` on a short tuple) or `ValueError` (`int("")`). -/
def is_new_version (current other : String) : Option Bool :=
  let current_tuple := (split_ver current.data).map (zfill 8)
  let other_tuple := (split_ver other.data).map (zfill 8)
  if list_lex_lt (current_tuple.take 3) (other_tuple.take 3) then some true
  else if list_lex_lt (other_tuple.take 3) (current_tuple.take 3) then some false
  else if other_tuple.length = 3 ∧ current_tuple.length = 3 then some false
  else if other_tuple.length ≠ current_tuple.length then
    some (decide (other_tuple.length < current_tuple.length))
  else
    match current_tuple.get? 3, other_tuple.get? 3 with
    | some c3, some o3 =>
      match c3.head?, o3.head? with
      | some cc, some oc =>
        if cc ≠ oc then some (decide (cc < oc))
        else
          match parse_int (c3.filter Char.isDigit), parse_int (o3.filter Char.isDigit) with
          | some ci, some oi => some (decide (ci < oi))
          | _, _ => none
      | _, _ => none
    | _, _ => none

/-- A version string of the grammar `major.minor.patch` optionally followed by
`-word.number`: the rendering used to quantify over well-formed versions. -/
def render_version (major minor patch : String) (suffix : Option (String × String)) : String :=
  major ++ "." ++ minor ++ "." ++ patch ++
    match suffix with
    | none => ""
    | some (word, num) => "-" ++ word ++ "." ++ num

/-- A version component is separator-free: none of its characters is a dot
or a hyphen. -/
def sep_free (s : String) : Prop := ∀ c ∈ s.data, ¬(c = '.' ∨ c = '-')

instance sep_free_decidable (s : String) : Decidable (sep_free s) :=
  inferInstanceAs (Decidable (∀ c ∈ s.data, ¬(c = '.' ∨ c = '-')))

theorem split_ver_no_sep (xs : List Char) (h : ∀ c ∈ xs, ¬(c = '.' ∨ c = '-')) :
    split_ver xs = [xs] := by
  induction xs with
  | nil => rfl
  | cons c cs ih =>
    have hc := h c (List.mem_cons_self c cs)
    have ih' := ih (fun d hd => h d (List.mem_cons_of_mem _ hd))
    simp [split_ver, hc, ih']

theorem split_ver_sep_append (xs : List Char) (s : Char) (l : List Char)
    (hs : s = '.' ∨ s = '-') (h : ∀ c ∈ xs, ¬(c = '.' ∨ c = '-')) :
    split_ver (xs ++ s :: l) = xs :: split_ver l := by
  induction xs with
  | nil => simp [split_ver, if_pos hs]
  | cons c cs ih =>
    have hc := h c (List.mem_cons_self c cs)
    have ih' := ih (fun d hd => h d (List.mem_cons_of_mem _ hd))
    simp [split_ver, hc, ih']

theorem list_char_lt_self (l : List Char) : list_char_lt l l = false := by
  induction l with
  | nil => rfl
  | cons a as ih => simp [list_char_lt, ih]

theorem list_lex_lt_self (l : List (List Char)) : list_lex_lt l l = false := by
  induction l with
  | nil => rfl
  | cons a as ih => simp [list_lex_lt, ih]

/-- C4: of the four reference vectors for `_is_new_version`, the first three
hold on the code, but the fourth does not: `isNewer("0.3.0-alpha.2",
"0.3.0-alpha.10")` evaluates to `false`, because the digits compared are
extracted from the zero-padded suffix word (component 3, `"000alpha"`,
giving `0` on both sides) while the numeric suffix component (component 4)
is never consulted. -/
theorem C4_reference_vectors :
    is_new_version "0.3.0" "0.3.1" = some true ∧
    is_new_version "0.3.0" "0.3.0" = some false ∧
    is_new_version "0.3.0-beta.1" "0.3.0" = some true ∧
    is_new_version "0.3.0-alpha.2" "0.3.0-alpha.10" = some false := by
  refine ⟨by decide, by decide, by decide, by decide⟩

/-- C5: at equal `major.minor.patch`, a `beta` version is not ordered above
an `alpha` version: both directions of the comparison return `false`.  The
"first letter" the code compares is the first character of the `zfill(8)`
padding, `'0'` on both sides, and the digit remainders of the padded words
are `"000"` and `"0000"`, both parsed as `0`. -/
theorem C5_alpha_beta_indistinguishable :
    is_new_version "0.3.0-alpha.1" "0.3.0-beta.1" = some false ∧
    is_new_version "0.3.0-beta.1" "0.3.0-alpha.1" = some false := by
  refine ⟨by decide, by decide⟩

/-- C10: `_is_new_version` is irreflexive on every well-formed version string
`major.minor.patch` with an optional `-alpha.N` or `-beta.N` suffix:
comparing a version with itself returns `false`. -/
theorem C10_irreflexive (major minor patch : String)
    (suffix : Option (String × String))
    (h1 : sep_free major) (h2 : sep_free minor) (h3 : sep_free patch)
    (h4 : ∀ w n, suffix = some (w, n) → (w = "alpha" ∨ w = "beta") ∧ sep_free n) :
    is_new_version (render_version major minor patch suffix)
      (render_version major minor patch suffix) = some false := by
  cases suffix with
  | none =>
    have hsplit : split_ver ((render_version major minor patch none).data)
        = [major.data, minor.data, patch.data] := by
      simp only [render_version, String.data_append]
      simp only [List.append_nil, List.append_assoc, List.cons_append, List.nil_append]
      rw [split_ver_sep_append major.data '.' _ (Or.inl rfl) h1,
        split_ver_sep_append minor.data '.' _ (Or.inl rfl) h2,
        split_ver_no_sep patch.data h3]
    simp [is_new_version, hsplit, list_lex_lt_self]
  | some wn =>
    obtain ⟨w, n⟩ := wn
    obtain ⟨hw, hn⟩ := h4 w n rfl
    have hsplit : split_ver ((render_version major minor patch (some (w, n))).data)
        = [major.data, minor.data, patch.data, w.data, n.data] := by
      simp only [render_version, String.data_append]
      simp only [List.append_assoc, List.cons_append, List.nil_append]
      have hwsep : ∀ c ∈ w.data, ¬(c = '.' ∨ c = '-') := by
        rcases hw with hw | hw <;> rw [hw] <;> decide
      rw [split_ver_sep_append major.data '.' _ (Or.inl rfl) h1,
        split_ver_sep_append minor.data '.' _ (Or.inl rfl) h2,
        split_ver_sep_append patch.data '-' _ (Or.inr rfl) h3,
        split_ver_sep_append w.data '.' _ (Or.inl rfl) hwsep,
        split_ver_no_sep n.data hn]
    rcases hw with hw | hw <;>
      subst hw <;>
      simp [is_new_version, hsplit, list_lex_lt_self, zfill, parse_int, List.get?]

/-- C10 witness: the irreflexivity theorem applied to the concrete version
`0.3.0-alpha.2`. -/
theorem C10_irreflexive_witness :
    is_new_version (render_version "0" "3" "0" (some ("alpha", "2")))
      (render_version "0" "3" "0" (some ("alpha", "2"))) = some false :=
  C10_irreflexive "0" "3" "0" (some ("alpha", "2"))
    (by decide) (by decide) (by decide)
    (fun w n h => by
      simp only [Option.some.injEq, Prod.mk.injEq] at h
      obtain ⟨hw, hn⟩ := h
      subst hw; subst hn
      exact ⟨Or.inl rfl, by decide⟩)

/-! Section: the dbus screenshot-portal protocol
(`src/normcap/screengrab/dbus_portal.py`). -/

/-- `TIMEOUT_SECONDS` from `dbus_portal.py` line 33. -/
def TIMEOUT_SECONDS : Nat := 10

/-- The exception types raised in `dbus_portal.py`.  `ScreenshotRequestError`
and `ScreenshotResponseError` are imported from `normcap.screengrab`, whose
definition is not part of the excerpt; modelled from the spec: the error
taxonomy of section 7 lists `RequestRejected`, `ResponseError` and `TimedOut`
as three distinct failure types, so the first two are modelled as distinct
from Python's builtin `TimeoutError` (constructor `timeout`). -/
inductive ScreenshotException where
  | requestError (msg : String)
  | responseError (msg : String)
  | timeout (msg : String)
deriving DecidableEq, Repr

/-- A terminal report delivered through one of the portal object's Qt
signals: `on_result` carries a URI string, `on_exception` an exception. -/
inductive Emission where
  | result (uri : String)
  | exception (e : ScreenshotException)
deriving DecidableEq, Repr

/-- The correlated response signal of the portal, as `got_signal` consumes
it: the first bus argument (the response code, a uint32) and the textual
form `str(message)` that the URI is scraped from. -/
structure SignalMessage where
  code : Nat
  repr : String
deriving DecidableEq, Repr

/-- Model of Python `s.split(sep)` for a non-empty separator string:
cut at each non-overlapping occurrence of `sep`, left to right, keeping
empty pieces.  Structural recursion on a fuel bounded by the input length. -/
def py_split_aux (sep : List Char) : Nat → List Char → List Char → List String
  | _, [], acc => [String.mk acc.reverse]
  | 0, l, acc => [String.mk (acc.reverse ++ l)]
  | fuel + 1, c :: rest, acc =>
    if sep.isPrefixOf (c :: rest) then
      String.mk acc.reverse :: py_split_aux sep fuel ((c :: rest).drop sep.length) []
    else
      py_split_aux sep fuel rest (c :: acc)

def py_split (sep s : String) : List String :=
  match sep.data with
  | [] => [s]
  | seps => py_split_aux seps (s.data.length + 1) s.data []

/-- The literal marker `'[Variant(QString): "'` of `dbus_portal.py` line 126. -/
def variant_marker : String := "[Variant(QString): \""

/-- The literal closing marker of `dbus_portal.py` line 127. -/
def closing_marker : String := "\"]\x7d"

/-- The URI scraping of `got_signal` lines 126-127:
`str(message).split('[Variant(QString): "')[1].split('"]\x7d')[0]`.
`none` models the `IndexError` raised by `[1]` when the marker does not
occur. -/
def extract_uri (s : String) : Option String :=
  match py_split variant_marker s with
  | _ :: second :: _ =>
    some (match py_split closing_marker second with
          | first :: _ => first
          | [] => second)
  | _ => none

/-- The emissions performed by `got_signal` (lines 115-141) on one response
signal, in order: a non-zero code first emits `on_exception` with a
`ScreenshotResponseError` (and does not return), then the URI is scraped
from the message text unconditionally and emitted on `on_result`; if the
marker is absent the `IndexError` aborts the slot after the error emission,
so no result is emitted. -/
def got_signal_emissions (m : SignalMessage) : List Emission :=
  (if m.code ≠ 0 then
    [Emission.exception (ScreenshotException.responseError
      ("Error code " ++ toString m.code ++ " received from xdg-portal!"))]
   else []) ++
  (match extract_uri m.repr with
   | some uri => [Emission.result uri]
   | none => [])

/-- One argument of the acknowledgement message of the `Screenshot` call:
either a `QDBusObjectPath` or something else. -/
inductive AckArg where
  | objectPath (p : String)
  | other (s : String)
deriving DecidableEq, Repr

/-- The acknowledgement returned by `interface.call("Screenshot", ...)`, as
`grab_full_desktop` inspects it (lines 92-96): whether the reply is a
`QDBusMessage` at all, and its argument list. -/
structure AckMessage where
  is_dbus_message : Bool
  args : List AckArg
deriving DecidableEq, Repr

/-- The validity check of `grab_full_desktop` lines 92-96: the reply is a
`QDBusMessage`, has arguments, and the first argument is an object path. -/
def ack_valid (m : AckMessage) : Bool :=
  m.is_dbus_message && !m.args.isEmpty &&
    (match m.args.head? with
     | some (AckArg.objectPath _) => true
     | _ => false)

/-- The emissions of `grab_full_desktop` itself (lines 87-101): an invalid
acknowledgement synchronously emits `on_exception` with a
`ScreenshotRequestError`; a valid one emits nothing (the response arrives
later as a signal). -/
def grab_ack_emissions (m : AckMessage) : List Emission :=
  if ack_valid m then []
  else [Emission.exception (ScreenshotException.requestError
    "No object path received from xdg-portal!")]

/-- The options map of the `Screenshot` bus call. -/
structure ScreenshotOptions where
  interactive : Bool
  handle_token : String
deriving DecidableEq, Repr

/-- The bus call issued by `grab_full_desktop` (lines 79-89).  The
`interactive` argument models the `self.interactive` attribute of the
portal object; the source never reads it: line 88 passes the literal
`False` in the options map. -/
structure BusCall where
  service : String
  object_path : String
  iface : String
  method : String
  parent_window : String
  options : ScreenshotOptions
deriving DecidableEq, Repr

def grab_full_desktop_call (interactive : Bool) (token : String) : BusCall :=
  { service := "org.freedesktop.portal.Desktop"
    object_path := "/org/freedesktop/portal/desktop"
    iface := "org.freedesktop.portal.Screenshot"
    method := "Screenshot"
    parent_window := ""
    options := { interactive := false, handle_token := token } }

/-- The timeout message of `_get_timeout_timer` line 105. -/
def timeout_msg (timeout_sec : Nat) : String :=
  "No response from xdg-portal within " ++ toString timeout_sec ++ "s!"

/-- The mutable context of one `_synchronized_capture` run (lines 144-175):
the single-shot timer (started before the event loop), the `result` and
`exceptions` lists of the two local callbacks, and whether `loop.exit()`
has been called. -/
structure CaptureState where
  timerActive : Bool
  result : List String
  exceptions : List ScreenshotException
  exited : Bool
deriving DecidableEq, Repr

def initial_capture_state : CaptureState :=
  { timerActive := true, result := [], exceptions := [], exited := false }

/-- Delivery of one emission to the connected callback of
`_synchronized_capture`: `_signal_triggered` appends the URI to `result`,
`_exception_triggered` appends to `exceptions`; both call `loop.exit()`. -/
def apply_emission (st : CaptureState) (e : Emission) : CaptureState :=
  match e with
  | Emission.result uri => { st with result := st.result ++ [uri], exited := true }
  | Emission.exception ex => { st with exceptions := st.exceptions ++ [ex], exited := true }

/-- An occurrence the Qt event loop can dispatch while
`_synchronized_capture` waits: the queued `grab_full_desktop` call examining
its acknowledgement, a correlated response signal, or the firing of the
single-shot timeout timer. -/
inductive PortalEvent where
  | ackMessage (m : AckMessage)
  | responseSignal (m : SignalMessage)
  | timerFires
deriving DecidableEq, Repr

/-- One event dispatch.  The timer only fires while armed and disarms itself
(single shot).  `got_signal` stops the timer first (line 116) and then
performs its emissions; the slot chain completes even though `loop.exit()`
was already called. -/
def step (timeout_sec : Nat) (ev : PortalEvent) (st : CaptureState) : CaptureState :=
  match ev with
  | PortalEvent.timerFires =>
    if st.timerActive then
      apply_emission { st with timerActive := false }
        (Emission.exception (ScreenshotException.timeout (timeout_msg timeout_sec)))
    else st
  | PortalEvent.ackMessage m =>
    (grab_ack_emissions m).foldl apply_emission st
  | PortalEvent.responseSignal m =>
    (got_signal_emissions m).foldl apply_emission { st with timerActive := false }

/-- The `loop.exec()` of `_synchronized_capture`: dispatch events in order
until `loop.exit()` has been called; later events are no longer dispatched
by this loop. -/
def run_event_loop (timeout_sec : Nat) : List PortalEvent → CaptureState → CaptureState
  | [], st => st
  | ev :: evs, st =>
    if st.exited then st else run_event_loop timeout_sec evs (step timeout_sec ev st)

/-- The tail of `_synchronized_capture` (lines 170-174): every recorded
exception is re-raised before `result` is read, so the first exception wins;
with no exception the first URI is taken (`result[0]` on an empty list would
raise, but the loop only exits after a callback appended something). -/
def loop_outcome (exceptions : List ScreenshotException) (result : List String) :
    Option (Except ScreenshotException String) :=
  match exceptions with
  | e :: _ => some (Except.error e)
  | [] =>
    match result with
    | uri :: _ => some (Except.ok uri)
    | [] => none

/-- An image as `QtGui.QImage(path)` constructs it: the file it was loaded
from.  The geometric content is irrelevant to the claims. -/
structure QImage where
  source_path : String
deriving DecidableEq, Repr

/-- Modelled from the Python standard library's `urlparse(uri).path` as used
on `file://`-style URIs: the path component after the scheme and authority. -/
def urlparse_path (uri : String) : String :=
  match py_split "://" uri with
  | _ :: after :: _ => String.mk (after.data.dropWhile (fun c => c ≠ '/'))
  | _ => uri

/-- `_synchronized_capture(interactive)` (lines 144-175) as a function of the
event sequence the loop dispatches.  `split_fn` stands for the external
collaborator `split_full_desktop_to_screens` from `normcap.screengrab.utils`,
which is outside the excerpt; it is kept as a parameter.  `none` models a
run that never returns (the loop is never exited).  The portal object's
`interactive` attribute does not influence any of this (it is never read),
so it is not a parameter. -/
def sync_result (split_fn : QImage → List QImage) (st : CaptureState) :
    Option (Except ScreenshotException (List QImage)) :=
  if st.exited then
    match loop_outcome st.exceptions st.result with
    | some (Except.error e) => some (Except.error e)
    | some (Except.ok uri) => some (Except.ok (split_fn { source_path := urlparse_path uri }))
    | none => none
  else none

def synchronized_capture (split_fn : QImage → List QImage) (events : List PortalEvent) :
    Option (Except ScreenshotException (List QImage)) :=
  sync_result split_fn (run_event_loop TIMEOUT_SECONDS events initial_capture_state)

/-- Python truthiness of `os.getenv("FLATPAK_ID")`: `None` (unset) and the
empty string are falsy. -/
def env_truthy : Option String → Bool
  | none => false
  | some s => s != ""

/-- `capture()` (lines 200-242) as a function of the `FLATPAK_ID`
environment value and the event sequences of the two phases.  `result` is
initialised to the empty list; only `TimeoutError` is caught around each
`_synchronized_capture` call, every other exception propagates to the
caller; a Phase-1 timeout is final (empty result) unless `FLATPAK_ID` is
truthy, in which case the interactive retry runs on `phase2_events`. -/
def capture (flatpak_id : Option String) (split_fn : QImage → List QImage)
    (phase1_events phase2_events : List PortalEvent) :
    Option (Except ScreenshotException (List QImage)) :=
  match synchronized_capture split_fn phase1_events with
  | none => none
  | some (Except.ok images) => some (Except.ok images)
  | some (Except.error e) =>
    match e with
    | ScreenshotException.timeout _ =>
      if env_truthy flatpak_id = false then some (Except.ok [])
      else
        match synchronized_capture split_fn phase2_events with
        | none => none
        | some (Except.ok images) => some (Except.ok images)
        | some (Except.error e2) =>
          match e2 with
          | ScreenshotException.timeout _ => some (Except.ok [])
          | e2 => some (Except.error e2)
    | e => some (Except.error e)

/-- Whether `capture` reaches its second `_synchronized_capture` call: it
mirrors the control flow of `capture` — Phase 1 raised `TimeoutError` and
`FLATPAK_ID` is truthy. -/
def phase2_attempted (flatpak_id : Option String) (split_fn : QImage → List QImage)
    (phase1_events : List PortalEvent) : Bool :=
  match synchronized_capture split_fn phase1_events with
  | some (Except.error (ScreenshotException.timeout _)) => env_truthy flatpak_id
  | _ => false

/-- The state of the portal object itself that outlives the event loop:
whether its single-shot timer is still armed. -/
structure PortalState where
  timerActive : Bool
deriving DecidableEq, Repr

/-- The timer firing at the portal level: emits the `TimeoutError` and
disarms itself. -/
def timer_fire (timeout_sec : Nat) (st : PortalState) : PortalState × List Emission :=
  if st.timerActive then
    ({ timerActive := false },
     [Emission.exception (ScreenshotException.timeout (timeout_msg timeout_sec))])
  else (st, [])

/-- `got_signal` at the portal level: it stops the timer and performs its
emissions; it consults no other state — in particular no resolved flag —
so its emissions are the same whatever happened before. -/
def got_signal_step (m : SignalMessage) (st : PortalState) : PortalState × List Emission :=
  ({ timerActive := false }, got_signal_emissions m)

/-- Is an emission a URI result? -/
def is_result_emission : Emission → Bool
  | Emission.result _ => true
  | _ => false

/-- Is an emission an exception report? -/
def is_error_emission : Emission → Bool
  | Emission.exception _ => true
  | _ => false

def count_result_emissions (l : List Emission) : Nat :=
  (l.filter is_result_emission).length

def count_error_emissions (l : List Emission) : Nat :=
  (l.filter is_error_emission).length

/-- A concrete stand-in for the external image splitter, used by the
concrete witnesses. -/
def split0 : QImage → List QImage := fun img => [img]

/-! Section: helper lemmas about the event loop. -/

instance except_decidable_eq {ε α : Type} [DecidableEq ε] [DecidableEq α] :
    DecidableEq (Except ε α)
  | Except.ok a, Except.ok b =>
    if h : a = b then isTrue (by rw [h])
    else isFalse (fun hc => h (Except.ok.inj hc))
  | Except.error a, Except.error b =>
    if h : a = b then isTrue (by rw [h])
    else isFalse (fun hc => h (Except.error.inj hc))
  | Except.ok _, Except.error _ => isFalse (fun hc => Except.noConfusion hc)
  | Except.error _, Except.ok _ => isFalse (fun hc => Except.noConfusion hc)

theorem run_loop_exited (ts : Nat) (evs : List PortalEvent) (st : CaptureState)
    (h : st.exited = true) : run_event_loop ts evs st = st := by
  cases evs with
  | nil => rfl
  | cons e es => simp [run_event_loop, h]

theorem apply_emission_exited (st : CaptureState) (e : Emission) :
    (apply_emission st e).exited = true := by
  cases e <;> rfl

theorem foldl_apply_emission_pres (l : List Emission) (st : CaptureState)
    (h : st.exceptions ≠ [] → st.exited = true) :
    (l.foldl apply_emission st).exceptions ≠ [] →
      (l.foldl apply_emission st).exited = true := by
  induction l generalizing st with
  | nil => exact h
  | cons e es ih =>
    exact ih (apply_emission st e) (fun _ => apply_emission_exited st e)

theorem step_exc_exited (ts : Nat) (ev : PortalEvent) (st : CaptureState)
    (h : st.exceptions ≠ [] → st.exited = true) :
    (step ts ev st).exceptions ≠ [] → (step ts ev st).exited = true := by
  cases ev with
  | timerFires =>
    by_cases ha : st.timerActive = true
    · simp only [step, ha, if_true]
      exact fun _ => apply_emission_exited _ _
    · simp only [step, Bool.not_eq_true] at ha ⊢
      rw [ha]
      simpa using h
  | ackMessage m =>
    exact foldl_apply_emission_pres _ _ h
  | responseSignal m =>
    exact foldl_apply_emission_pres _ _ h

theorem run_loop_exc_exited (ts : Nat) (evs : List PortalEvent) (st : CaptureState)
    (h : st.exceptions ≠ [] → st.exited = true) :
    (run_event_loop ts evs st).exceptions ≠ [] →
      (run_event_loop ts evs st).exited = true := by
  induction evs generalizing st with
  | nil => exact h
  | cons e es ih =>
    by_cases hx : st.exited = true
    · rw [run_loop_exited ts (e :: es) st hx]
      exact fun _ => hx
    · simp only [run_event_loop, hx, if_false]
      exact ih (step ts e st) (step_exc_exited ts e st h)

/-! Section: the claims about the portal. -/

/-- C1: evaluation of the bug — the `Screenshot` bus call issued by
`grab_full_desktop` carries `interactive = False` in its options map
regardless of the portal object's `interactive` attribute (line 88 passes
the literal `False`), so the Phase-2 retry constructed with
`interactive=True` still requests a non-interactive screenshot, contrary to
the docstring of `capture` ("If timeout triggers, retry interactive mode"). -/
theorem C1_interactive_flag_hardcoded (interactive : Bool) (token : String) :
    (grab_full_desktop_call interactive token).options.interactive = false := rfl

/-- A response signal with a non-zero code whose textual form contains the
variant marker, as used by the C2 counterexample and the C9 witness. -/
def c2_message : SignalMessage :=
  { code := 1, repr := "sig [Variant(QString): \"file:///tmp/x.png\"]\x7d end" }

/-- C2 counterexample: a correlated signal with response code 1 causes both
a `ResponseError` emission and a URI (`Success`) emission for the same
request — `got_signal` emits the error and then still scrapes and emits the
URI, so two terminal outcomes are reported. -/
theorem C2_counterexample :
    got_signal_emissions c2_message =
      [Emission.exception (ScreenshotException.responseError
        "Error code 1 received from xdg-portal!"),
       Emission.result "file:///tmp/x.png"] ∧
    count_error_emissions (got_signal_emissions c2_message) = 1 ∧
    count_result_emissions (got_signal_emissions c2_message) = 1 := by
  refine ⟨by decide, by decide, by decide⟩

/-- C2 amended: per delivered signal, `got_signal` emits at most one URI
result, and it emits exactly one error when the response code is non-zero
(none when it is zero) — so a non-zero-code signal whose payload text
contains the variant marker reports two terminal outcomes, an error and a
URI. -/
theorem C2_amended_emission_counts (m : SignalMessage) :
    count_error_emissions (got_signal_emissions m) = (if m.code = 0 then 0 else 1) ∧
    count_result_emissions (got_signal_emissions m) ≤ 1 := by
  unfold got_signal_emissions count_error_emissions count_result_emissions
  by_cases h : m.code = 0 <;>
    cases hx : extract_uri m.repr <;>
      simp [h, hx, is_result_emission, is_error_emission, List.filter_append,
        List.filter]

/-- C3 counterexample: a Phase-1 `ResponseError` (response code 1) is not
converted into an empty capture result — `capture` only catches
`TimeoutError`, so the exception propagates to the caller. -/
theorem C3_counterexample :
    capture none split0 [PortalEvent.responseSignal { code := 1, repr := "no marker" }] []
      = some (Except.error (ScreenshotException.responseError
          "Error code 1 received from xdg-portal!")) ∧
    capture none split0 [PortalEvent.responseSignal { code := 1, repr := "no marker" }] []
      ≠ some (Except.ok []) := by
  refine ⟨by decide, by decide⟩

/-- C3 amended: `capture` converts only timeouts into an empty-list result —
a Phase-1 timeout without the sandbox marker and a Phase-2 timeout; every
other terminal failure (`Rejected` or `ResponseError`, in either phase)
propagates out of `capture` as an exception. -/
theorem C3_amended_only_timeouts_swallowed (fp : Option String)
    (split_fn : QImage → List QImage) (t1 t2 : List PortalEvent) :
    (∀ e, synchronized_capture split_fn t1 = some (Except.error e) →
      (∀ m, e ≠ ScreenshotException.timeout m) →
      capture fp split_fn t1 t2 = some (Except.error e)) ∧
    (∀ m, synchronized_capture split_fn t1
        = some (Except.error (ScreenshotException.timeout m)) →
      env_truthy fp = false →
      capture fp split_fn t1 t2 = some (Except.ok [])) ∧
    (∀ m m2, synchronized_capture split_fn t1
        = some (Except.error (ScreenshotException.timeout m)) →
      env_truthy fp = true →
      synchronized_capture split_fn t2
        = some (Except.error (ScreenshotException.timeout m2)) →
      capture fp split_fn t1 t2 = some (Except.ok [])) ∧
    (∀ m e2, synchronized_capture split_fn t1
        = some (Except.error (ScreenshotException.timeout m)) →
      env_truthy fp = true →
      synchronized_capture split_fn t2 = some (Except.error e2) →
      (∀ m2, e2 ≠ ScreenshotException.timeout m2) →
      capture fp split_fn t1 t2 = some (Except.error e2)) := by
  refine ⟨?_, ?_, ?_, ?_⟩
  · intro e h1 hnt
    cases e with
    | timeout msg => exact absurd rfl (hnt msg)
    | requestError msg => simp [capture, h1]
    | responseError msg => simp [capture, h1]
  · intro m h1 henv
    simp [capture, h1, henv]
  · intro m m2 h1 henv h2
    simp [capture, h1, henv, h2]
  · intro m e2 h1 henv h2 hnt
    cases e2 with
    | timeout msg => exact absurd rfl (hnt msg)
    | requestError msg => simp [capture, h1, henv, h2]
    | responseError msg => simp [capture, h1, henv, h2]

/-- C3 amended witness: a Phase-1 response-error run propagates out of
`capture`. -/
theorem C3_amended_witness :
    capture none split0 [PortalEvent.responseSignal { code := 7, repr := "no marker" }] []
      = some (Except.error (ScreenshotException.responseError
          "Error code 7 received from xdg-portal!")) :=
  (C3_amended_only_timeouts_swallowed none split0
      [PortalEvent.responseSignal { code := 7, repr := "no marker" }] []).1
    (ScreenshotException.responseError "Error code 7 received from xdg-portal!")
    (by decide) (fun m => by simp)

/-- A well-formed late response signal, used by the C6 counterexample. -/
def c6_late_message : SignalMessage :=
  { code := 0, repr := "late [Variant(QString): \"file:///tmp/late.png\"]\x7d end" }

/-- C6 counterexample: after the timeout has fired (the state
`(timer_fire ...).1`), a late correlated signal is not ignored: the response
callback consults no resolved state and still emits the URI outcome. -/
theorem C6_counterexample :
    (got_signal_step c6_late_message
        (timer_fire TIMEOUT_SECONDS { timerActive := true }).1).2
      = [Emission.result "file:///tmp/late.png"] ∧
    (got_signal_step c6_late_message
        (timer_fire TIMEOUT_SECONDS { timerActive := true }).1).2 ≠ [] := by
  refine ⟨by decide, by decide⟩

/-- C6 amended: the response callback checks no resolved state — its
emissions are identical in every portal state, including after the timeout
fired.  The request's outcome is nevertheless unaffected: once a
`TimeoutError` heads the recorded exceptions, the synchronous wrapper
raises that timeout whatever URIs were recorded afterwards. -/
theorem C6_amended_no_resolved_check (st st' : PortalState) (m : SignalMessage)
    (t : String) (more : List ScreenshotException) (res res' : List String) :
    (got_signal_step m st).2 = (got_signal_step m st').2 ∧
    loop_outcome (ScreenshotException.timeout t :: more) res
      = loop_outcome (ScreenshotException.timeout t :: more) res' ∧
    loop_outcome (ScreenshotException.timeout t :: more) res
      = some (Except.error (ScreenshotException.timeout t)) :=
  ⟨rfl, rfl, rfl⟩

/-- C7: the Phase-2 interactive retry is reached if and only if Phase 1
raised `TimeoutError` and the `FLATPAK_ID` environment marker is truthy;
when Phase 2 is not reached the Phase-2 events are irrelevant to `capture`,
and a Phase-1 timeout without the marker returns the empty image list. -/
theorem C7_phase2_gating (fp : Option String) (split_fn : QImage → List QImage)
    (t1 t2 t2' : List PortalEvent) :
    (phase2_attempted fp split_fn t1 = true ↔
      ((∃ m, synchronized_capture split_fn t1
          = some (Except.error (ScreenshotException.timeout m))) ∧
        env_truthy fp = true)) ∧
    (phase2_attempted fp split_fn t1 = false →
      capture fp split_fn t1 t2 = capture fp split_fn t1 t2') ∧
    (∀ m, synchronized_capture split_fn t1
        = some (Except.error (ScreenshotException.timeout m)) →
      env_truthy fp = false →
      capture fp split_fn t1 t2 = some (Except.ok [])) := by
  refine ⟨?_, ?_, ?_⟩
  · unfold phase2_attempted
    cases hsync : synchronized_capture split_fn t1 with
    | none => simp
    | some r =>
      cases r with
      | ok imgs => simp
      | error e => cases e <;> simp
  · intro hp
    cases hsync : synchronized_capture split_fn t1 with
    | none => simp [capture, hsync]
    | some r =>
      cases r with
      | ok imgs => simp [capture, hsync]
      | error e =>
        cases e with
        | timeout msg =>
          unfold phase2_attempted at hp
          rw [hsync] at hp
          simp at hp
          simp [capture, hsync, hp]
        | requestError msg => simp [capture, hsync]
        | responseError msg => simp [capture, hsync]
  · intro m hsync henv
    simp [capture, hsync, henv]

/-- C7 witness: a Phase-1 timeout with `FLATPAK_ID` unset yields the empty
image list. -/
theorem C7_phase2_gating_witness :
    capture none split0 [PortalEvent.timerFires] [] = some (Except.ok []) :=
  (C7_phase2_gating none split0 [PortalEvent.timerFires] [] []).2.2
    (timeout_msg TIMEOUT_SECONDS) (by decide) (by decide)

/-- C8: a `Screenshot` call whose acknowledgement carries no valid object
path fails synchronously with the request-rejected error, whatever signals
or timer firings would have followed: the loop exits on the synchronous
`ScreenshotRequestError` emission and the remaining events are never
dispatched. -/
theorem C8_invalid_ack_rejected (m : AckMessage) (rest : List PortalEvent)
    (split_fn : QImage → List QImage) (h : ack_valid m = false) :
    synchronized_capture split_fn (PortalEvent.ackMessage m :: rest)
      = some (Except.error (ScreenshotException.requestError
          "No object path received from xdg-portal!")) := by
  have hstep : step TIMEOUT_SECONDS (PortalEvent.ackMessage m) initial_capture_state
      = { timerActive := true, result := [],
          exceptions := [ScreenshotException.requestError
            "No object path received from xdg-portal!"],
          exited := true } := by
    simp [step, grab_ack_emissions, h, apply_emission, initial_capture_state]
  unfold synchronized_capture
  rw [show run_event_loop TIMEOUT_SECONDS (PortalEvent.ackMessage m :: rest)
        initial_capture_state
      = run_event_loop TIMEOUT_SECONDS rest
          (step TIMEOUT_SECONDS (PortalEvent.ackMessage m) initial_capture_state)
    from by simp [run_event_loop, initial_capture_state]]
  rw [hstep, run_loop_exited _ _ _ rfl]
  rfl

/-- C8 witness: an acknowledgement with no arguments at all is rejected
synchronously even though a timer firing was pending. -/
theorem C8_invalid_ack_rejected_witness :
    synchronized_capture split0
      [PortalEvent.ackMessage { is_dbus_message := true, args := [] },
       PortalEvent.timerFires]
      = some (Except.error (ScreenshotException.requestError
          "No object path received from xdg-portal!")) :=
  C8_invalid_ack_rejected { is_dbus_message := true, args := [] }
    [PortalEvent.timerFires] split0 (by decide)

/-- C9: errors take precedence over results in the synchronous wrapper — if
the event loop run recorded at least one exception, `_synchronized_capture`
raises the first recorded exception and never returns an image list, even
when a result URI was recorded for the same request. -/
theorem C9_exception_precedence (split_fn : QImage → List QImage)
    (events : List PortalEvent) (e : ScreenshotException)
    (rest : List ScreenshotException)
    (h : (run_event_loop TIMEOUT_SECONDS events initial_capture_state).exceptions
      = e :: rest) :
    synchronized_capture split_fn events = some (Except.error e) := by
  have hex : (run_event_loop TIMEOUT_SECONDS events initial_capture_state).exited
      = true := by
    refine run_loop_exc_exited TIMEOUT_SECONDS events initial_capture_state ?_ ?_
    · intro hne
      exact absurd rfl hne
    · rw [h]
      simp
  unfold synchronized_capture sync_result
  rw [hex, h]
  rfl

/-- C9 witness: a signal with code 1 and a parseable payload records both an
exception and a result URI; the wrapper raises the exception. -/
theorem C9_exception_precedence_witness :
    synchronized_capture split0 [PortalEvent.responseSignal c2_message]
      = some (Except.error (ScreenshotException.responseError
          "Error code 1 received from xdg-portal!")) :=
  C9_exception_precedence split0 [PortalEvent.responseSignal c2_message]
    (ScreenshotException.responseError "Error code 1 received from xdg-portal!")
    [] (by decide)
